import Mathlib

/-!
Verification development for the Galamsey Reporter single-file application
(src/src/App.tsx).  The JavaScript/TypeScript source is shallowly embedded:
IEEE-754 numbers become real numbers, ISO timestamps become real-valued
millisecond clocks, early-return functions become conditional expressions,
and code paths that throw at runtime become explicit error values.
-/

namespace Galawatch

/-! ## Geometry (App.tsx lines 12-43) -/

/-- A latitude/longitude pair in degrees, as stored in `gps`, `publicOffset`,
`captureLoc` and the user location.  Source object shape: `{lat, lon}`. -/
structure GeoPoint where
  lat : ℝ
  lon : ℝ

/-- Source line 14: `const toRad = (d) => (d * Math.PI) / 180`. -/
noncomputable def toRad (d : ℝ) : ℝ := d * Real.pi / 180

/-- JavaScript `Math.atan2(y, x)`, by the usual quadrant case split.
Division by zero never occurs in a taken branch because each guard pins the
sign of `x` (Lean's `x / 0 = 0` convention is only reachable in dead code). -/
noncomputable def atan2 (y x : ℝ) : ℝ :=
  if x > 0 then Real.arctan (y / x)
  else if x < 0 ∧ y ≥ 0 then Real.arctan (y / x) + Real.pi
  else if x < 0 then Real.arctan (y / x) - Real.pi
  else if y > 0 then Real.pi / 2
  else if y < 0 then -(Real.pi / 2)
  else 0

/-- Source lines 15-24: the haversine great-circle distance with Earth radius
6,371,000 m.  `Math.sqrt` of a negative argument is not reachable for the
latitudes the app feeds in; we use `Real.sqrt` (which is 0 on negatives). -/
noncomputable def haversine (lat1 lon1 lat2 lon2 : ℝ) : ℝ :=
  2 * 6371000 *
    atan2
      (Real.sqrt (Real.sin (toRad (lat2 - lat1) / 2) ^ 2 +
        Real.cos (toRad lat1) * Real.cos (toRad lat2) *
          Real.sin (toRad (lon2 - lon1) / 2) ^ 2))
      (Real.sqrt (1 - (Real.sin (toRad (lat2 - lat1) / 2) ^ 2 +
        Real.cos (toRad lat1) * Real.cos (toRad lat2) *
          Real.sin (toRad (lon2 - lon1) / 2) ^ 2)))

/-- Source line 13: `const clamp = (v, min, max) => Math.max(min, Math.min(max, v))`. -/
noncomputable def clamp (v mn mx : ℝ) : ℝ := max mn (min mx v)

/-- Source lines 26-43: `randomPointInRing`.  The two `Math.random()` draws are
injected as `u v : ℝ` (each in `[0,1)` for a faithful run). -/
noncomputable def randomPointInRing (lat lon minMeters maxMeters u v : ℝ) : GeoPoint :=
  { lat := Real.arcsin
      (Real.sin (toRad lat) * Real.cos ((minMeters + v * (maxMeters - minMeters)) / 6371000) +
        Real.cos (toRad lat) * Real.sin ((minMeters + v * (maxMeters - minMeters)) / 6371000) *
          Real.cos (u * (2 * Real.pi))) * 180 / Real.pi
    lon := (toRad lon +
      atan2
        (Real.sin (u * (2 * Real.pi)) *
          Real.sin ((minMeters + v * (maxMeters - minMeters)) / 6371000) * Real.cos (toRad lat))
        (Real.cos ((minMeters + v * (maxMeters - minMeters)) / 6371000) -
          Real.sin (toRad lat) *
            Real.sin (Real.arcsin
              (Real.sin (toRad lat) * Real.cos ((minMeters + v * (maxMeters - minMeters)) / 6371000) +
                Real.cos (toRad lat) *
                  Real.sin ((minMeters + v * (maxMeters - minMeters)) / 6371000) *
                    Real.cos (u * (2 * Real.pi)))))) * 180 / Real.pi }

/-! ## Data model (App.tsx lines 59-90) -/

/-- One media attachment (`media` array entries). -/
structure MediaItem where
  kind : String
  name : String
  dataUrl : String
  locked : Bool

/-- Optional contact block (`contact` field, present only when not anonymous). -/
structure Contact where
  phone : Option String
  email : Option String
  wantsCallback : Bool
  preferredTime : Option String

/-- One `history` entry `{state, at}`.  The source field `at` is a Lean
keyword, so it is called `atTime` here; `at` holds an ISO timestamp in the
source and a real-valued millisecond clock here. -/
structure HistoryEntry where
  state : String
  atTime : ℝ

/-- The `safeUpload` block.  In the source `captureLoc` and `createdAt` are
optional and omitted when `required = false`; the total model always carries
values for them, and (as in the source) they are only ever read on the
`required = true` path. -/
structure SafeUpload where
  required : Bool
  ready : Bool
  captureLoc : GeoPoint
  createdAt : ℝ

/-- The `Report` entity (source lines 59-74). -/
structure Report where
  id : String
  createdAt : ℝ
  category : String
  description : String
  gps : GeoPoint
  blurRadius : ℝ
  publicOffset : GeoPoint
  media : List MediaItem
  anonymous : Bool
  contact : Option Contact
  rewardOptIn : Bool
  status : String
  history : List HistoryEntry
  safeUpload : SafeUpload

/-- `settings.safe` (`{minMeters, maxWaitMins}`; defaults 1000 / 30 are
supplied by `loadSettings`, so the loaded object always has both fields). -/
structure SafeSettings where
  minMeters : ℝ
  maxWaitMins : ℝ

/-- `settings.authority` (`{sms, ussd}`). -/
structure Authority where
  sms : String
  ussd : String

/-- Process-wide settings object. -/
structure Settings where
  authority : Authority
  safe : SafeSettings

/-! ## Status list and JavaScript array helpers (App.tsx line 90) -/

def sQueued : String := "Queued"
def sSubmitted : String := "Submitted"
def sReceived : String := "Received"
def sInProgress : String := "In Progress"
def sResolved : String := "Resolved"
def emptyStr : String := ""

/-- Source line 90: `const STATUSES = ["Queued", "Submitted", "Received",
"In Progress", "Resolved"]`. -/
def STATUSES : List String := [sQueued, sSubmitted, sReceived, sInProgress, sResolved]

/-- JavaScript `Array.prototype.indexOf` on a list of strings: index of the
first occurrence, `-1` when absent. -/
def jsIndexOf : List String → String → Int
  | [], _ => -1
  | x :: xs, s =>
      if x = s then 0
      else if jsIndexOf xs s = -1 then -1 else jsIndexOf xs s + 1

/-- Position of a status string in the fixed lifecycle order (`-1` for a
string that is not a lifecycle state), exactly as the source computes it. -/
def stateIdx (s : String) : Int := jsIndexOf STATUSES s

/-! ## Lifecycle transitions (App.tsx lines 324-338) -/

/-- Source lines 324-332: `advanceStatus`.  The source computes
`idx = STATUSES.indexOf(r.status)` and, when `idx < STATUSES.length - 1`,
replaces the status by `STATUSES[idx + 1]` and appends a matching history
entry (the index and next status are inlined below instead of let-bound).
JavaScript indexing with `-1 + 1 = 0` after a failed `indexOf` lands on
`"Queued"`. -/
def advanceStatus (now : ℝ) (r : Report) : Report :=
  if jsIndexOf STATUSES r.status < (STATUSES.length : Int) - 1 then
    { r with
      status := STATUSES.getD (jsIndexOf STATUSES r.status + 1).toNat emptyStr,
      history := r.history ++
        [{ state := STATUSES.getD (jsIndexOf STATUSES r.status + 1).toNat emptyStr, atTime := now }] }
  else r

/-- Source lines 333-337: `markResolvedDemo`, the forceResolve escape hatch:
unconditionally set status `Resolved` and append a `Resolved` entry. -/
def markResolvedDemo (now : ℝ) (r : Report) : Report :=
  { r with status := sResolved, history := r.history ++ [{ state := sResolved, atTime := now }] }

/-! ## Safe-upload gate (App.tsx lines 212-222)

Branching on a real-valued comparison is classical, hence the
`open Classical` below; every definition that the source evaluates over
machine numbers and booleans stays computable. -/

open Classical

/-- Source lines 212-222: `isReportSafeToUpload(r, loc, now)`.  The source's
intermediate constants (`minMeters`, `maxWaitMs`, `createdMs`, `waited`, `d`)
are inlined.  Note that the wait clock is measured from `r.createdAt`, not
from `r.safeUpload.createdAt`. -/
noncomputable def isReportSafeToUpload
    (s : Settings) (r : Report) (loc : Option GeoPoint) (now : ℝ) : Bool :=
  if r.safeUpload.required = false then true
  else if now - r.createdAt ≥ s.safe.maxWaitMins * 60 * 1000 then true
  else
    match loc with
    | none => false
    | some l =>
        decide (haversine l.lat l.lon r.safeUpload.captureLoc.lat r.safeUpload.captureLoc.lon ≥
          s.safe.minMeters)

/-! ## Sync coordinator (App.tsx lines 224-233 and 360-380) -/

/-- Source lines 226-230, the per-report body of the 30-second periodic tick:
a report with `safeUpload.required = true` that the gate now accepts and whose
`ready` flag is still false gets `ready` latched to true; all other reports
pass through unchanged. -/
noncomputable def tickStep (s : Settings) (loc : Option GeoPoint) (now : ℝ) (r : Report) : Report :=
  if r.safeUpload.required = false then r
  else if isReportSafeToUpload s r loc now = true ∧ r.safeUpload.ready = false then
    { r with safeUpload := { r.safeUpload with ready := true } }
  else r

/-- Source lines 363-373, the per-report body of the immediate phase of
`manualSync`: a `Queued` or `Submitted` report is re-checked by the gate; a
gate-approved `Queued` report moves to `Submitted` (appending history and
latching `safeUpload.ready`); everything else passes through unchanged.
`t1` is the ISO timestamp taken when the transition is built. -/
noncomputable def manualSyncStep
    (s : Settings) (loc : Option GeoPoint) (now t1 : ℝ) (r : Report) : Report :=
  if r.status = sQueued ∨ r.status = sSubmitted then
    if isReportSafeToUpload s r loc now = false then r
    else if r.status = sQueued then
      { r with
        status := sSubmitted,
        history := r.history ++ [{ state := sSubmitted, atTime := t1 }],
        safeUpload := { r.safeUpload with ready := true } }
    else r
  else r

/-- Source lines 375-379, the per-report body of the delayed (1.2 s) phase of
`manualSync`: every report still `Submitted` at fire time advances to
`Received` with a history entry. -/
def receiveStep (now : ℝ) (r : Report) : Report :=
  if r.status = sSubmitted then
    { r with status := sReceived, history := r.history ++ [{ state := sReceived, atTime := now }] }
  else r

/-- Error indicator raised to the caller of `manualSync` (the source signals
it synchronously with an alert and returns without touching state). -/
inductive SyncError where
  | offline
deriving DecidableEq

/-- Result of a `manualSync` call: the report collection after the call and
the error indicator, if any. -/
structure SyncOutcome where
  reports : List Report
  error : Option SyncError

/-- Source lines 360-380: `manualSync`.  Offline it alerts and returns with
no state change.  Online it maps the immediate phase over the collection and
schedules the delayed `Received` phase; under the app's single-writer model
with no interleaving action, the post-delay collection is the delayed phase
mapped over the immediate result, which is how the two phases are composed
here (`t2` being the delayed fire time). -/
noncomputable def manualSync (s : Settings) (online : Bool) (loc : Option GeoPoint)
    (reports : List Report) (now t1 t2 : ℝ) : SyncOutcome :=
  if online = false then { reports := reports, error := some SyncError.offline }
  else
    { reports := (reports.map (manualSyncStep s loc now t1)).map (receiveStep t2),
      error := none }

/-! ## Report creation (App.tsx lines 262-322) -/

/-- The checklist sub-form: `{types, hazards, time, risk}`.  The JavaScript
string-keyed boolean objects become insertion-ordered association lists. -/
structure Checklist where
  types : List (String × Bool)
  hazards : List (String × Bool)
  time : String
  risk : String

/-- The contact sub-form (all plain strings in the form state). -/
structure ContactForm where
  phone : String
  email : String
  wantsCallback : Bool
  preferredTime : String

/-- The reporting form state (source lines 205-210). -/
structure Form where
  category : String
  description : String
  gps : Option GeoPoint
  blurRadius : ℝ
  anonymous : Bool
  contact : ContactForm
  rewardOptIn : Bool
  media : List MediaItem
  stealth : Bool
  uploadWhenSafe : Bool
  checklistMode : Bool
  checklist : Checklist

def commaSep : String := ", "
def noneStr : String := "(none)"
def unspecifiedStr : String := "unspecified"
def newlineStr : String := "\n"
def checklistCategory : String := "(checklist)"

/-- `sel` inside `buildChecklistDescription` (source line 263): the keys whose
value is truthy, in order. -/
def selKeys (obj : List (String × Bool)) : List String :=
  (obj.filter (fun p => p.2)).map (fun p => p.1)

/-- JavaScript `s || d` for strings: `d` when `s` is empty. -/
def orDefault (s d : String) : String := if s = "" then d else s

/-- Source lines 262-269: `buildChecklistDescription`. -/
def buildChecklistDescription (chk : Checklist) : String :=
  "Checklist report — Types: " ++ orDefault (String.intercalate commaSep (selKeys chk.types)) noneStr ++
  ". Hazards: " ++ orDefault (String.intercalate commaSep (selKeys chk.hazards)) noneStr ++
  ". Time: " ++ orDefault chk.time unspecifiedStr ++
  ". Risk: " ++ orDefault chk.risk unspecifiedStr ++ "."

/-- JavaScript `str.replace(/([A-Z])/g, " $1")`: a space inserted before each
ASCII uppercase letter. -/
def spaceBeforeCaps (s : String) : String :=
  String.mk (s.data.flatMap (fun c => if c.isUpper then [' ', c] else [c]))

/-- JavaScript `str.replace(/^./, (x) => x.toUpperCase())`: uppercase the
first character, if any. -/
def capitalizeFirst (s : String) : String :=
  match s.data with
  | [] => emptyStr
  | c :: cs => String.mk (c.toUpper :: cs)

/-- Source lines 287-290 of `submitReport`: when the category is empty, the
checklist mode is on and the checklist `types` object has at least one key,
the category is replaced by the first truthy type key, de-camel-cased and
capitalized; otherwise the category is left as entered. -/
def submitCategory (f : Form) : String :=
  if f.category = "" ∧ f.checklistMode = true ∧ 0 < f.checklist.types.length then
    match f.checklist.types.find? (fun p => p.2) with
    | some p => capitalizeFirst (spaceBeforeCaps p.1)
    | none => f.category
  else f.category

/-- Source line 284: `descAuto`, the checklist-generated description. -/
def descAutoOf (f : Form) : String :=
  if f.checklistMode = true then buildChecklistDescription f.checklist else emptyStr

/-- Source line 285: `finalDesc = [descAuto, form.description].filter(Boolean).join("\n")`. -/
def finalDescOf (f : Form) : String :=
  String.intercalate newlineStr (([descAutoOf f, f.description]).filter (fun s => s != ""))

/-- JavaScript `s || null`. -/
def emptyToNone (s : String) : Option String := if s = "" then none else some s

/-- How a `submitReport` call can fail before a report is stored.
`validationError` is the alert for a missing category/description/GPS
(source lines 292-295).  `referenceErrorMax` models the uncaught JavaScript
`ReferenceError` thrown on line 300: the offset expression calls a bare
`max(1, br * 0.5)`, but no `max` is in scope in the module (the file's own
helper is `clamp`, and the analogous preview code on line 623 spells it
`Math.max`), so any submission whose clamped blur radius is positive throws
while evaluating the call's arguments and creates nothing. -/
inductive SubmitError where
  | validationError
  | referenceErrorMax
deriving DecidableEq

/-- Source lines 283-322: `submitReport`.  The fresh uuid and the ISO
timestamp `new Date().toISOString()` are injected as `id` and `now`.  The
source tests `!(category || checklistMode) || !finalDesc || !form.gps` in one
expression and returns after an alert; here the absent-GPS case is split off
first by the match (same outcome).  On line 300 the source computes
`br > 0 ? randomPointInRing(lat, lon, max(1, br * 0.5), br) : {lat, lon}`;
because `max` is an unresolved identifier the positive-radius arm throws (see
`SubmitError.referenceErrorMax`), and only the `br ≤ 0` arm, which copies the
exact location, completes. -/
noncomputable def submitReport (online : Bool) (id : String) (now : ℝ) (f : Form) :
    Except SubmitError Report :=
  match f.gps with
  | none => Except.error SubmitError.validationError
  | some g =>
      if ¬(submitCategory f ≠ "" ∨ f.checklistMode = true) ∨ finalDescOf f = "" then
        Except.error SubmitError.validationError
      else if clamp f.blurRadius 0 2000 > 0 then
        Except.error SubmitError.referenceErrorMax
      else
        Except.ok
          { id := id
            createdAt := now
            category := orDefault (submitCategory f) checklistCategory
            description := finalDescOf f
            gps := g
            blurRadius := clamp f.blurRadius 0 2000
            publicOffset := { lat := g.lat, lon := g.lon }
            media := f.media
            anonymous := f.anonymous
            contact :=
              if f.anonymous = true then none
              else some
                { phone := emptyToNone f.contact.phone
                  email := emptyToNone f.contact.email
                  wantsCallback := f.contact.wantsCallback
                  preferredTime := emptyToNone f.contact.preferredTime }
            rewardOptIn := !f.anonymous && f.rewardOptIn
            status := if online = true then sSubmitted else sQueued
            history := [{ state := if online = true then sSubmitted else sQueued, atTime := now }]
            safeUpload :=
              if f.uploadWhenSafe || f.stealth then
                { required := true, ready := false, captureLoc := g, createdAt := now }
              else
                { required := false, ready := true, captureLoc := g, createdAt := now } }

/-! ## The history/status well-formedness invariant (spec section 3) -/

/-- The state recorded by the last history entry, if any. -/
def lastState (h : List HistoryEntry) : Option String :=
  h.getLast?.map (fun e => e.state)

/-- One admissible consecutive pair of history states: strictly forward in
the lifecycle order, or a repeated `Resolved` (which only the forceResolve
escape hatch produces). -/
def StepOkS (a b : String) : Prop :=
  stateIdx a < stateIdx b ∨ (a = sResolved ∧ b = sResolved)

/-- `StepOkS` lifted to history entries. -/
def StepOk (x y : HistoryEntry) : Prop := StepOkS x.state y.state

/-- The report invariant of spec section 3: the last history entry's state
equals `status`, the status is one of the five lifecycle states, and
consecutive history states follow the fixed order (repeats only as
`Resolved` after `Resolved`). -/
def Wf (r : Report) : Prop :=
  lastState r.history = some r.status ∧ r.status ∈ STATUSES ∧ List.Chain' StepOk r.history

/-- Appending an entry makes its state the last state. -/
theorem lastState_push (h : List HistoryEntry) (e : HistoryEntry) :
    lastState (h ++ [e]) = some e.state := by
  unfold lastState
  rw [List.getLast?_concat]
  rfl

/-- Appending an entry whose state admissibly follows the current last state
preserves the history chain. -/
theorem chain_push {h : List HistoryEntry} {s1 : String} (e : HistoryEntry)
    (hc : List.Chain' StepOk h) (hl : lastState h = some s1) (hs : StepOkS s1 e.state) :
    List.Chain' StepOk (h ++ [e]) := by
  refine List.chain'_append.mpr ⟨hc, List.chain'_singleton e, ?_⟩
  intro x hx y hy
  have hxs : x.state = s1 := by
    unfold lastState at hl
    rw [Option.mem_def] at hx
    rw [hx] at hl
    exact Option.some.inj hl
  have hye : y = e := by
    rw [List.head?] at hy
    exact (Option.some.inj (Option.mem_def.mp hy)).symm
  rw [hye]
  unfold StepOk
  rw [hxs]
  exact hs

/-- A status string outside the list is at index `-1`, as in JavaScript. -/
theorem jsIndexOf_of_not_mem {l : List String} {s : String} (h : s ∉ l) :
    jsIndexOf l s = -1 := by
  induction l with
  | nil => rfl
  | cons x xs ih =>
      have hx : ¬(x = s) := fun he => h (he ▸ List.mem_cons_self x xs)
      have hxs : s ∉ xs := fun hm => h (List.mem_cons_of_mem x hm)
      unfold jsIndexOf
      rw [if_neg hx, ih hxs]
      simp

/-! ## The spec's reading of the gate clock, for claim C2 -/

/-- The safe-upload readiness predicate exactly as the spec sentence behind
claim C2 words it: the wait clock runs from `report.safeUpload.createdAt`.
This definition follows the spec's words (it is the comparison point for the
refinement claim C2); the source function `isReportSafeToUpload` instead
reads `report.createdAt`. -/
def isReadyClaim (s : Settings) (r : Report) (loc : Option GeoPoint) (now : ℝ) : Prop :=
  if r.safeUpload.required = false then True
  else if now - r.safeUpload.createdAt ≥ s.safe.maxWaitMins * 60 * 1000 then True
  else
    match loc with
    | none => False
    | some l =>
        haversine l.lat l.lon r.safeUpload.captureLoc.lat r.safeUpload.captureLoc.lon ≥
          s.safe.minMeters

/-! ## Concrete sample data used by witnesses and counterexamples -/

def S0 : Settings :=
  { authority := { sms := emptyStr, ussd := emptyStr },
    safe := { minMeters := 1000, maxWaitMins := 30 } }

noncomputable def gp0 : GeoPoint := { lat := 5.6, lon := -0.2 }

noncomputable def baseSafe : SafeUpload :=
  { required := true, ready := false, captureLoc := gp0, createdAt := 0 }

def idA : String := "report-a"
def idB : String := "report-b"
def catOther : String := "Other"
def descSample : String := "Excavator dredging the river near the bridge"

noncomputable def baseReport : Report :=
  { id := idA
    createdAt := 0
    category := catOther
    description := descSample
    gps := gp0
    blurRadius := 0
    publicOffset := gp0
    media := []
    anonymous := true
    contact := none
    rewardOptIn := false
    status := sQueued
    history := [{ state := sQueued, atTime := 0 }]
    safeUpload := baseSafe }

/-- A report whose `safeUpload.ready` flag is already latched. -/
noncomputable def rReady : Report :=
  { baseReport with safeUpload := { baseSafe with ready := true } }

/-- A report already in the terminal `Resolved` state. -/
noncomputable def rRes : Report :=
  { baseReport with status := sResolved, history := [{ state := sResolved, atTime := 0 }] }

/-- A report whose status string is not one of the five lifecycle states
(for example foreign persisted data). -/
noncomputable def rCorrupt : Report :=
  { baseReport with status := "Pending review" }

/-- A report whose `safeUpload.createdAt` (one hour before the epoch) differs
from its `createdAt` (the epoch), as persisted data may. -/
noncomputable def rBad : Report :=
  { baseReport with safeUpload := { baseSafe with createdAt := -3600000 } }

def contact0 : ContactForm :=
  { phone := emptyStr, email := emptyStr, wantsCallback := false, preferredTime := emptyStr }

def checklist0 : Checklist :=
  { types := [], hazards := [], time := emptyStr, risk := emptyStr }

/-- A valid reporting form with the default 300 m blur radius. -/
noncomputable def baseForm : Form :=
  { category := catOther
    description := descSample
    gps := some gp0
    blurRadius := 300
    anonymous := true
    contact := contact0
    rewardOptIn := false
    media := []
    stealth := false
    uploadWhenSafe := true
    checklistMode := false
    checklist := checklist0 }

/-- The same valid form with blur radius 0. -/
noncomputable def form0 : Form := { baseForm with blurRadius := 0 }

/-- The same valid form with blur radius 500. -/
noncomputable def form500 : Form := { baseForm with blurRadius := 500 }

/-! ## Evaluation lemmas for `submitReport` -/

theorem clamp_zero : ¬(clamp (0 : ℝ) 0 2000 > 0) := by
  unfold clamp
  rw [min_def, max_def]
  norm_num

theorem clamp_three_hundred : clamp (300 : ℝ) 0 2000 > 0 := by
  unfold clamp
  rw [min_def, max_def]
  norm_num

theorem clamp_five_hundred : clamp (500 : ℝ) 0 2000 > 0 := by
  unfold clamp
  rw [min_def, max_def]
  norm_num

/-- A validated submission whose clamped blur radius is positive dies on the
unresolved `max` identifier of source line 300. -/
theorem submitReport_blur_pos {online : Bool} {id : String} {now : ℝ} {f : Form} {g : GeoPoint}
    (hg : f.gps = some g)
    (hval : ¬(¬(submitCategory f ≠ "" ∨ f.checklistMode = true) ∨ finalDescOf f = ""))
    (hbr : clamp f.blurRadius 0 2000 > 0) :
    submitReport online id now f = Except.error SubmitError.referenceErrorMax := by
  unfold submitReport
  simp only [hg]
  rw [if_neg hval, if_pos hbr]

/-- A validated submission whose clamped blur radius is not positive takes the
`{lat, lon}` arm of line 300 and stores the report. -/
theorem submitReport_blur_nonpos {online : Bool} {id : String} {now : ℝ} {f : Form} {g : GeoPoint}
    (hg : f.gps = some g)
    (hval : ¬(¬(submitCategory f ≠ "" ∨ f.checklistMode = true) ∨ finalDescOf f = ""))
    (hbr : ¬(clamp f.blurRadius 0 2000 > 0)) :
    submitReport online id now f = Except.ok
      { id := id
        createdAt := now
        category := orDefault (submitCategory f) checklistCategory
        description := finalDescOf f
        gps := g
        blurRadius := clamp f.blurRadius 0 2000
        publicOffset := { lat := g.lat, lon := g.lon }
        media := f.media
        anonymous := f.anonymous
        contact :=
          if f.anonymous = true then none
          else some
            { phone := emptyToNone f.contact.phone
              email := emptyToNone f.contact.email
              wantsCallback := f.contact.wantsCallback
              preferredTime := emptyToNone f.contact.preferredTime }
        rewardOptIn := !f.anonymous && f.rewardOptIn
        status := if online = true then sSubmitted else sQueued
        history := [{ state := if online = true then sSubmitted else sQueued, atTime := now }]
        safeUpload :=
          if f.uploadWhenSafe || f.stealth then
            { required := true, ready := false, captureLoc := g, createdAt := now }
          else
            { required := false, ready := true, captureLoc := g, createdAt := now } } := by
  unfold submitReport
  simp only [hg]
  rw [if_neg hval, if_neg hbr]

/-- Any report a submission actually stores is the record literal built on
source lines 303-315, with the form's GPS fix as its exact location. -/
theorem submitReport_ok_inversion {online : Bool} {id : String} {now : ℝ} {f : Form} {r : Report}
    (h : submitReport online id now f = Except.ok r) :
    ∃ g, f.gps = some g ∧ r =
      { id := id
        createdAt := now
        category := orDefault (submitCategory f) checklistCategory
        description := finalDescOf f
        gps := g
        blurRadius := clamp f.blurRadius 0 2000
        publicOffset := { lat := g.lat, lon := g.lon }
        media := f.media
        anonymous := f.anonymous
        contact :=
          if f.anonymous = true then none
          else some
            { phone := emptyToNone f.contact.phone
              email := emptyToNone f.contact.email
              wantsCallback := f.contact.wantsCallback
              preferredTime := emptyToNone f.contact.preferredTime }
        rewardOptIn := !f.anonymous && f.rewardOptIn
        status := if online = true then sSubmitted else sQueued
        history := [{ state := if online = true then sSubmitted else sQueued, atTime := now }]
        safeUpload :=
          if f.uploadWhenSafe || f.stealth then
            { required := true, ready := false, captureLoc := g, createdAt := now }
          else
            { required := false, ready := true, captureLoc := g, createdAt := now } } := by
  unfold submitReport at h
  cases hg : f.gps with
  | none =>
      rw [hg] at h
      exact absurd h (by simp)
  | some g =>
      simp only [hg] at h
      by_cases h1 : ¬(submitCategory f ≠ "" ∨ f.checklistMode = true) ∨ finalDescOf f = ""
      · rw [if_pos h1] at h
        exact absurd h (by simp)
      · rw [if_neg h1] at h
        by_cases h2 : clamp f.blurRadius 0 2000 > 0
        · rw [if_pos h2] at h
          exact absurd h (by simp)
        · rw [if_neg h2] at h
          exact ⟨g, rfl, (Except.ok.inj h).symm⟩

/-! ## Claim theorems -/

/-- C3: when the process is offline, `manualSync` changes no report (the
returned collection is the input collection unchanged, hence every status,
history and safeUpload state is unchanged) and synchronously hands the caller
the offline error indicator. -/
theorem c3_manual_sync_offline_noop (s : Settings) (loc : Option GeoPoint)
    (reports : List Report) (now t1 t2 : ℝ) :
    manualSync s false loc reports now t1 t2 =
      { reports := reports, error := some SyncError.offline } := by
  unfold manualSync
  rw [if_pos rfl]

/-- C5: advancing a report whose status is already `Resolved` is a no-op (the
spec's recoverable `TerminalState` failure): the report — in particular its
status and history — is returned unchanged and no history entry is appended. -/
theorem c5_advance_terminal_noop (now : ℝ) (r : Report) (h : r.status = sResolved) :
    advanceStatus now r = r := by
  unfold advanceStatus
  rw [h]
  rfl

/-- Witness for C5 at a concrete resolved report. -/
theorem c5_witness : rRes.status = sResolved ∧ advanceStatus 7 rRes = rRes :=
  ⟨rfl, c5_advance_terminal_noop 7 rRes rfl⟩

/-- C10: advancing a report whose status string is not one of the five
lifecycle states (`indexOf` returns `-1`, so the source reads `STATUSES[0]`)
resets the status to `Queued` and appends a `Queued` history entry, instead
of rejecting the report or leaving it unchanged. -/
theorem c10_advance_unknown_status (now : ℝ) (r : Report) (h : r.status ∉ STATUSES) :
    (advanceStatus now r).status = sQueued ∧
      (advanceStatus now r).history = r.history ++ [{ state := sQueued, atTime := now }] := by
  unfold advanceStatus
  rw [jsIndexOf_of_not_mem h]
  rw [if_pos (by decide)]
  exact ⟨rfl, rfl⟩

/-- Witness for C10 at a concrete report with a foreign status string. -/
theorem c10_witness :
    rCorrupt.status ∉ STATUSES ∧
      (advanceStatus 7 rCorrupt).status = sQueued ∧
      (advanceStatus 7 rCorrupt).history =
        rCorrupt.history ++ [{ state := sQueued, atTime := 7 }] :=
  ⟨by decide, c10_advance_unknown_status 7 rCorrupt (by decide)⟩

/-- C7: the safe-upload gate is monotone.  First conjunct: once the gate is
true because of elapsed time (the wait threshold is met at `t1`), it stays
true at every later `t2`, for any fixed report and location.  Second
conjunct: for a fixed report and time, moving to a location at least as far
from the capture origin never turns a true gate into a false one. -/
theorem c7_gate_monotone :
    (∀ (s : Settings) (r : Report) (loc : Option GeoPoint) (t1 t2 : ℝ),
        t1 ≤ t2 → t1 - r.createdAt ≥ s.safe.maxWaitMins * 60 * 1000 →
        isReportSafeToUpload s r loc t2 = true) ∧
    (∀ (s : Settings) (r : Report) (l1 l2 : GeoPoint) (now : ℝ),
        haversine l1.lat l1.lon r.safeUpload.captureLoc.lat r.safeUpload.captureLoc.lon ≤
          haversine l2.lat l2.lon r.safeUpload.captureLoc.lat r.safeUpload.captureLoc.lon →
        isReportSafeToUpload s r (some l1) now = true →
        isReportSafeToUpload s r (some l2) now = true) := by
  constructor
  · intro s r loc t1 t2 h12 hwait
    unfold isReportSafeToUpload
    by_cases hreq : r.safeUpload.required = false
    · rw [if_pos hreq]
    · rw [if_neg hreq, if_pos (by linarith)]
  · intro s r l1 l2 now hd h1
    unfold isReportSafeToUpload at h1 ⊢
    by_cases hreq : r.safeUpload.required = false
    · rw [if_pos hreq]
    · rw [if_neg hreq] at h1 ⊢
      by_cases hw : now - r.createdAt ≥ s.safe.maxWaitMins * 60 * 1000
      · rw [if_pos hw]
      · rw [if_neg hw] at h1 ⊢
        have h1d : haversine l1.lat l1.lon r.safeUpload.captureLoc.lat
            r.safeUpload.captureLoc.lon ≥ s.safe.minMeters := by
          have h1x : decide (haversine l1.lat l1.lon r.safeUpload.captureLoc.lat
              r.safeUpload.captureLoc.lon ≥ s.safe.minMeters) = true := h1
          exact of_decide_eq_true h1x
        show decide (haversine l2.lat l2.lon r.safeUpload.captureLoc.lat
          r.safeUpload.captureLoc.lon ≥ s.safe.minMeters) = true
        exact decide_eq_true (by linarith)

/-- Witness for C7's first conjunct: a concrete report created at the epoch,
no location fix, checked 2,000,000 ms later against the default 30-minute
policy. -/
theorem c7_witness :
    (2000000 : ℝ) ≤ 2000000 ∧
      (2000000 : ℝ) - baseReport.createdAt ≥ S0.safe.maxWaitMins * 60 * 1000 ∧
      isReportSafeToUpload S0 baseReport none 2000000 = true := by
  have hw : (2000000 : ℝ) - baseReport.createdAt ≥ S0.safe.maxWaitMins * 60 * 1000 := by
    show (2000000 : ℝ) - 0 ≥ 30 * 60 * 1000
    norm_num
  exact ⟨le_refl _, hw, c7_gate_monotone.1 S0 baseReport none 2000000 2000000 (le_refl _) hw⟩

/-- C2, corrected reading: the source gate returns true exactly when the
report opted out of deferred upload, or the wait threshold measured from the
report's `createdAt` field has passed, or the current location is known and
at least `minMeters` from the capture origin. -/
theorem c2_gate_characterization (s : Settings) (r : Report) (loc : Option GeoPoint) (now : ℝ) :
    isReportSafeToUpload s r loc now = true ↔
      (r.safeUpload.required = false ∨
        now - r.createdAt ≥ s.safe.maxWaitMins * 60 * 1000 ∨
        ∃ l, loc = some l ∧
          haversine l.lat l.lon r.safeUpload.captureLoc.lat r.safeUpload.captureLoc.lon ≥
            s.safe.minMeters) := by
  unfold isReportSafeToUpload
  by_cases hreq : r.safeUpload.required = false
  · rw [if_pos hreq]
    simp [hreq]
  · rw [if_neg hreq]
    by_cases hw : now - r.createdAt ≥ s.safe.maxWaitMins * 60 * 1000
    · rw [if_pos hw]
      simp [hreq, hw]
    · rw [if_neg hw]
      cases loc with
      | none => simp [hreq, hw]
      | some l => simp [hreq, hw]

/-- C2, counterexample to the claim as stated: for the concrete report `rBad`
(created at the epoch, `safeUpload.createdAt` an hour earlier) with no
location fix at `now` = 600,000 ms, the claim's wait clock (from
`safeUpload.createdAt`) says the gate must be true, but the source gate —
whose clock runs from the report's `createdAt` — returns false. -/
theorem c2_counterexample :
    isReadyClaim S0 rBad none 600000 ∧ isReportSafeToUpload S0 rBad none 600000 = false := by
  constructor
  · unfold isReadyClaim
    rw [if_neg (by decide)]
    rw [if_pos (by norm_num [rBad, baseSafe, S0])]
    trivial
  · unfold isReportSafeToUpload
    rw [if_neg (by decide)]
    rw [if_neg (by norm_num [rBad, baseReport, S0])]

/-- C6: `safeUpload.ready` is monotone.  Each per-report operation (periodic
tick, both phases of manual sync, advance, forceResolve) maps a report with
`ready = true` to a report with `ready = true`; and a stored report whose
`safeUpload.required` is false was created with `ready = true`. -/
theorem c6_ready_monotone :
    (∀ (s : Settings) (loc : Option GeoPoint) (now : ℝ) (r : Report),
        r.safeUpload.ready = true → (tickStep s loc now r).safeUpload.ready = true) ∧
    (∀ (s : Settings) (loc : Option GeoPoint) (now t1 : ℝ) (r : Report),
        r.safeUpload.ready = true → (manualSyncStep s loc now t1 r).safeUpload.ready = true) ∧
    (∀ (now : ℝ) (r : Report),
        r.safeUpload.ready = true → (receiveStep now r).safeUpload.ready = true) ∧
    (∀ (now : ℝ) (r : Report),
        r.safeUpload.ready = true → (advanceStatus now r).safeUpload.ready = true) ∧
    (∀ (now : ℝ) (r : Report),
        r.safeUpload.ready = true → (markResolvedDemo now r).safeUpload.ready = true) ∧
    (∀ (online : Bool) (id : String) (now : ℝ) (f : Form) (r : Report),
        submitReport online id now f = Except.ok r → r.safeUpload.required = false →
        r.safeUpload.ready = true) := by
  refine ⟨?_, ?_, ?_, ?_, ?_, ?_⟩
  · intro s loc now r h
    unfold tickStep
    split_ifs with h1 h2
    · exact h
    · rfl
    · exact h
  · intro s loc now t1 r h
    unfold manualSyncStep
    split_ifs with h1 h2 h3
    · exact h
    · rfl
    · exact h
    · exact h
  · intro now r h
    unfold receiveStep
    split_ifs with h1
    · exact h
    · exact h
  · intro now r h
    unfold advanceStatus
    split_ifs with h1
    · exact h
    · exact h
  · intro now r h
    exact h
  · intro online id now f r h hreq
    obtain ⟨g, hg, hr⟩ := submitReport_ok_inversion h
    subst hr
    by_cases hu : (f.uploadWhenSafe || f.stealth) = true
    · exfalso
      simp [hu] at hreq
    · simp [hu]

/-- Witness for C6 at a concrete latched report going through the tick. -/
theorem c6_witness :
    rReady.safeUpload.ready = true ∧ (tickStep S0 none 7 rReady).safeUpload.ready = true :=
  ⟨rfl, c6_ready_monotone.1 S0 none 7 rReady rfl⟩

/-! ## Preservation of the history/status invariant, operation by operation -/

theorem stepOk_queued_submitted : StepOkS sQueued sSubmitted := Or.inl (by decide)

theorem stepOk_submitted_received : StepOkS sSubmitted sReceived := Or.inl (by decide)

theorem stepOk_received_inprogress : StepOkS sReceived sInProgress := Or.inl (by decide)

theorem stepOk_inprogress_resolved : StepOkS sInProgress sResolved := Or.inl (by decide)

theorem stepOk_resolved_resolved : StepOkS sResolved sResolved := Or.inr ⟨rfl, rfl⟩

theorem stepOk_to_resolved {st : String} (h : st ∈ STATUSES) : StepOkS st sResolved := by
  simp only [STATUSES, List.mem_cons, List.not_mem_nil, or_false] at h
  rcases h with h|h|h|h|h <;> subst h
  · exact Or.inl (by decide)
  · exact Or.inl (by decide)
  · exact Or.inl (by decide)
  · exact stepOk_inprogress_resolved
  · exact stepOk_resolved_resolved

theorem wf_tickStep (s : Settings) (loc : Option GeoPoint) (now : ℝ) (r : Report) (h : Wf r) :
    Wf (tickStep s loc now r) := by
  unfold tickStep
  split_ifs with h1 h2
  · exact h
  · exact h
  · exact h

theorem wf_markResolvedDemo (now : ℝ) (r : Report) (h : Wf r) : Wf (markResolvedDemo now r) := by
  obtain ⟨h1, h2, h3⟩ := h
  unfold markResolvedDemo
  refine ⟨lastState_push r.history _, ?_, ?_⟩
  · show sResolved ∈ STATUSES
    decide
  · exact chain_push _ h3 h1 (stepOk_to_resolved h2)

theorem wf_advanceStatus (now : ℝ) (r : Report) (h : Wf r) : Wf (advanceStatus now r) := by
  obtain ⟨h1, h2, h3⟩ := h
  have hmem := h2
  simp only [STATUSES, List.mem_cons, List.not_mem_nil, or_false] at hmem
  unfold advanceStatus
  rcases hmem with hs|hs|hs|hs|hs <;> rw [hs]
  · rw [if_pos (by decide)]
    refine ⟨lastState_push r.history _, ?_, ?_⟩
    · show sSubmitted ∈ STATUSES
      decide
    · refine chain_push _ h3 h1 ?_
      rw [hs]
      exact stepOk_queued_submitted
  · rw [if_pos (by decide)]
    refine ⟨lastState_push r.history _, ?_, ?_⟩
    · show sReceived ∈ STATUSES
      decide
    · refine chain_push _ h3 h1 ?_
      rw [hs]
      exact stepOk_submitted_received
  · rw [if_pos (by decide)]
    refine ⟨lastState_push r.history _, ?_, ?_⟩
    · show sInProgress ∈ STATUSES
      decide
    · refine chain_push _ h3 h1 ?_
      rw [hs]
      exact stepOk_received_inprogress
  · rw [if_pos (by decide)]
    refine ⟨lastState_push r.history _, ?_, ?_⟩
    · show sResolved ∈ STATUSES
      decide
    · refine chain_push _ h3 h1 ?_
      rw [hs]
      exact stepOk_inprogress_resolved
  · rw [if_neg (by decide)]
    exact ⟨h1, h2, h3⟩

theorem wf_manualSyncStep (s : Settings) (loc : Option GeoPoint) (now t1 : ℝ) (r : Report)
    (h : Wf r) : Wf (manualSyncStep s loc now t1 r) := by
  obtain ⟨h1, h2, h3⟩ := h
  unfold manualSyncStep
  split_ifs with ha hb hc
  · exact ⟨h1, h2, h3⟩
  · refine ⟨lastState_push r.history _, ?_, ?_⟩
    · show sSubmitted ∈ STATUSES
      decide
    · refine chain_push _ h3 h1 ?_
      rw [hc]
      exact stepOk_queued_submitted
  · exact ⟨h1, h2, h3⟩
  · exact ⟨h1, h2, h3⟩

theorem wf_receiveStep (now : ℝ) (r : Report) (h : Wf r) : Wf (receiveStep now r) := by
  obtain ⟨h1, h2, h3⟩ := h
  unfold receiveStep
  split_ifs with ha
  · refine ⟨lastState_push r.history _, ?_, ?_⟩
    · show sReceived ∈ STATUSES
      decide
    · refine chain_push _ h3 h1 ?_
      rw [ha]
      exact stepOk_submitted_received
  · exact ⟨h1, h2, h3⟩

theorem wf_submitReport {online : Bool} {id : String} {now : ℝ} {f : Form} {r : Report}
    (h : submitReport online id now f = Except.ok r) : Wf r := by
  obtain ⟨g, hg, hr⟩ := submitReport_ok_inversion h
  subst hr
  cases online with
  | false =>
      refine ⟨rfl, ?_, List.chain'_singleton _⟩
      show sQueued ∈ STATUSES
      decide
  | true =>
      refine ⟨rfl, ?_, List.chain'_singleton _⟩
      show sSubmitted ∈ STATUSES
      decide

/-- C4: every operation respects the history/status invariant `Wf` — the
last history entry's state equals `status` and consecutive history states
move strictly forward in the order Queued, Submitted, Received, In Progress,
Resolved, a repeat being possible only as Resolved-after-Resolved via the
forceResolve escape hatch.  Creation establishes `Wf`; advance, forceResolve,
both phases of manual sync, and the periodic tick preserve it. -/
theorem c4_lifecycle_invariant :
    (∀ (online : Bool) (id : String) (now : ℝ) (f : Form) (r : Report),
        submitReport online id now f = Except.ok r → Wf r) ∧
    (∀ (now : ℝ) (r : Report), Wf r → Wf (advanceStatus now r)) ∧
    (∀ (now : ℝ) (r : Report), Wf r → Wf (markResolvedDemo now r)) ∧
    (∀ (s : Settings) (loc : Option GeoPoint) (now t1 : ℝ) (r : Report),
        Wf r → Wf (manualSyncStep s loc now t1 r)) ∧
    (∀ (now : ℝ) (r : Report), Wf r → Wf (receiveStep now r)) ∧
    (∀ (s : Settings) (loc : Option GeoPoint) (now : ℝ) (r : Report),
        Wf r → Wf (tickStep s loc now r)) :=
  ⟨fun _ _ _ _ _ h => wf_submitReport h, wf_advanceStatus, wf_markResolvedDemo,
    wf_manualSyncStep, wf_receiveStep, wf_tickStep⟩

/-- Witness for C4 at a concrete freshly queued report being advanced. -/
theorem c4_witness : Wf baseReport ∧ Wf (advanceStatus 7 baseReport) :=
  ⟨⟨rfl, by decide, List.chain'_singleton _⟩,
    c4_lifecycle_invariant.2.1 7 baseReport ⟨rfl, by decide, List.chain'_singleton _⟩⟩

/-- C1, evaluated at the bug: with blur radius 0 the stored public location
is exactly the capture point (the claim's zero-radius half holds), but any
valid submission whose clamped blur radius is positive — here the default
300 m — never reaches `randomPointInRing`: the argument expression
`max(1, br * 0.5)` on source line 300 names an undefined `max` and throws,
so no report (and no public location within the claimed distance band) is
ever produced. -/
theorem c1_blur_sampling_dead_code :
    (∃ r, submitReport true idA 0 form0 = Except.ok r ∧ r.publicOffset = r.gps) ∧
    submitReport true idA 0 baseForm = Except.error SubmitError.referenceErrorMax :=
  ⟨⟨_, submitReport_blur_nonpos rfl (by decide) clamp_zero, rfl⟩,
    submitReport_blur_pos rfl (by decide) clamp_three_hundred⟩

/-- C8, evaluated at the bug: an offline submission of a valid form with blur
radius 0 does store a `Queued` report with the single matching history entry
and the requested `safeUpload.required` flag, and the same form online stores
a `Submitted` report — but the same valid form with any positive blur radius
(here 500 m) throws on source line 300's undefined `max` and stores nothing,
so creation does not behave as claimed for all valid form data. -/
theorem c8_offline_creation_dead_code :
    (∃ r, submitReport false idB 0 form0 = Except.ok r ∧ r.status = sQueued ∧
        r.history = [{ state := sQueued, atTime := 0 }] ∧ r.safeUpload.required = true) ∧
    (∃ r, submitReport true idB 0 form0 = Except.ok r ∧ r.status = sSubmitted ∧
        r.history = [{ state := sSubmitted, atTime := 0 }]) ∧
    submitReport false idB 0 form500 = Except.error SubmitError.referenceErrorMax :=
  ⟨⟨_, submitReport_blur_nonpos rfl (by decide) clamp_zero, rfl, rfl, rfl⟩,
    ⟨_, submitReport_blur_nonpos rfl (by decide) clamp_zero, rfl, rfl⟩,
    submitReport_blur_pos rfl (by decide) clamp_five_hundred⟩

end Galawatch
